import Mathlib

/-!
Shallow embedding of the Math-solver-Agent routing and feedback agents
(`backend/app/agents/routing_agent.py`, `backend/app/agents/feedback_agent.py`,
thresholds from `backend/app/core/config.py`).

Python floats are modelled by `ℚ`; the arithmetic in the embedded code is
addition, `min` and halving of small decimal constants, which `ℚ` represents
exactly.  Python strings are `String`; `x in s` (substring test) is
`strContains`; dictionaries with a fixed key set are structures, the
defaultdict of counters is a function `String → ℕ`.  A Python call that can
raise is modelled by an `Except String` value supplied by the environment;
a `try/except` block is a `match` on that value.
-/

namespace MathSolverAgent

/-- Does `needle` occur as a contiguous run inside `haystack`? -/
def infixOf (needle : List Char) : List Char → Bool
  | [] => needle.isEmpty
  | c :: rest => needle.isPrefixOf (c :: rest) || infixOf needle rest

/-- Substring membership, Python's `needle in haystack` on strings. -/
def strContains (haystack needle : String) : Bool :=
  infixOf needle.data haystack.data

/-- Python's `str.lower()` (character-wise lowering, the same map that
`String.toLower` performs). -/
def pyLower (s : String) : String :=
  ⟨s.data.map Char.toLower⟩

/-- `config.py`: `confidence_threshold: float = 0.7`. -/
def confidence_threshold : ℚ := 0.7

/-- Python's two-argument `min`. -/
def pyMin (a b : ℚ) : ℚ := if a ≤ b then a else b

/-- A knowledge-base search hit; `result.get('score', 0.0)` is the `score`
field. -/
structure Candidate where
  score : ℚ
  content : String := ""
deriving Repr, DecidableEq

/-- `RouteDecision` enum of `routing_agent.py`. -/
inductive RouteDecision where
  | KNOWLEDGE_BASE
  | WEB_SEARCH
  | HYBRID
  | FALLBACK
deriving Repr, DecidableEq

/-- The `.value` of each `RouteDecision` member. -/
def RouteDecision.value : RouteDecision → String
  | .KNOWLEDGE_BASE => "knowledge_base"
  | .WEB_SEARCH => "web_search"
  | .HYBRID => "hybrid"
  | .FALLBACK => "fallback"

/-- Python's `max` over a non-empty list (`max([...])`); the empty-list case
never occurs in the embedded code because of the early return. -/
def listMax : List ℚ → ℚ
  | [] => 0
  | x :: xs => xs.foldl max x

/-- `RoutingAgent._calculate_kb_confidence`.  Early `0.0` return on an empty
result list, then `min(best_score + topic_boost, 1.0)` where each of the six
math-topic keywords found in the lowercased query adds `0.1`, and any of the
four computational words adds a further `0.1`. -/
def calculate_kb_confidence (results : List Candidate) (query : String) : ℚ :=
  if results = [] then 0.0
  else
    let best_score := listMax (results.map (fun result => result.score))
    let query_lower := pyLower query
    let math_topics := ["derivative", "integral", "quadratic", "linear", "equation", "formula"]
    let topic_boost :=
      math_topics.foldl (fun boost topic =>
        if strContains query_lower topic then boost + 0.1 else boost) 0.0
    let topic_boost :=
      if ["solve", "calculate", "find", "compute"].any (fun word => strContains query_lower word)
      then topic_boost + 0.1 else topic_boost
    pyMin (best_score + topic_boost) 1.0

/-- Python `query.split()`: whitespace-separated words, empty pieces dropped. -/
def pySplit (s : String) : List String :=
  (s.split Char.isWhitespace).filter (fun w => w ≠ "")

/-- `RoutingAgent._should_use_web_search`: `0.2` per web-search indicator
present, `0.3` per advanced topic, `0.2` for queries longer than ten words,
`0.3` for explanation-style queries and `0.1` otherwise, clamped to `1.0`. -/
def should_use_web_search (query : String) : ℚ :=
  let query_lower := pyLower query
  let web_search_indicators :=
    ["latest", "recent", "new", "current", "today", "2024", "2025",
     "research", "paper", "study", "theorem", "conjecture",
     "explain", "what is", "definition", "concept"]
  let advanced_topics :=
    ["riemann", "fermat", "basel", "euler", "gauss", "newton",
     "hypothesis", "conjecture", "problem", "paradox"]
  let score : ℚ := 0.0
  let score :=
    web_search_indicators.foldl (fun s indicator =>
      if strContains query_lower indicator then s + 0.2 else s) score
  let score :=
    advanced_topics.foldl (fun s topic =>
      if strContains query_lower topic then s + 0.3 else s) score
  let score := if (pySplit query).length > 10 then score + 0.2 else score
  let score :=
    if ["explain", "what is", "how does", "why"].any (fun word => strContains query_lower word)
    then score + 0.3 else score + 0.1
  pyMin score 1.0

/-- The `routing_metadata` dictionary built by `route_query`.  The
`confidence_scores` sub-dictionary holds at most the `knowledge_base` and
`web_search` entries, modelled as two `Option` fields (`none` = key absent). -/
structure RoutingMetadata where
  query : String
  kb_score : Option ℚ
  web_score : Option ℚ
  reasoning : String
  fallback_used : Bool
  route_used : Option String
deriving Repr, DecidableEq

/-- Stand-in for Python's `f"{x:.3f}"`; the two reasoning strings that use it
carry no specified content, so the exact digit rendering is abstracted. -/
def fmtScore (x : ℚ) : String := toString x

/-- `RoutingAgent.route_query`.  The fallible body of the `try` block is the
knowledge-base search, supplied as `kb_search : Except String (List Candidate)`;
the `except` branch is the `.error` case.  `_should_use_web_search` ignores its
`metadata` argument in the source, so it is not threaded through. -/
def route_query (query : String) (kb_search : Except String (List Candidate)) :
    RouteDecision × RoutingMetadata :=
  let routing_metadata : RoutingMetadata :=
    { query := query, kb_score := none, web_score := none,
      reasoning := "", fallback_used := false, route_used := none }
  match kb_search with
  | .error e =>
      (RouteDecision.FALLBACK,
       { routing_metadata with
           reasoning := "Error occurred, using fallback: " ++ e,
           fallback_used := true,
           route_used := some RouteDecision.FALLBACK.value })
  | .ok kb_results =>
      let kb_confidence := calculate_kb_confidence kb_results query
      let routing_metadata := { routing_metadata with kb_score := some kb_confidence }
      if kb_confidence ≥ confidence_threshold then
        let routing_metadata :=
          { routing_metadata with
              reasoning := "High confidence match in knowledge base (score: "
                ++ fmtScore kb_confidence ++ ")",
              route_used := some RouteDecision.KNOWLEDGE_BASE.value }
        (RouteDecision.KNOWLEDGE_BASE, routing_metadata)
      else
        let web_search_score := should_use_web_search query
        let routing_metadata := { routing_metadata with web_score := some web_search_score }
        if web_search_score ≥ 0.5 then
          if kb_confidence > 0.3 then
            (RouteDecision.HYBRID,
             { routing_metadata with
                 reasoning := "Using hybrid approach - combining KB and web search",
                 route_used := some RouteDecision.HYBRID.value })
          else
            (RouteDecision.WEB_SEARCH,
             { routing_metadata with
                 reasoning := "Using web search due to low KB confidence ("
                   ++ fmtScore kb_confidence ++ ")",
                 route_used := some RouteDecision.WEB_SEARCH.value })
        else
          (RouteDecision.FALLBACK,
           { routing_metadata with
               reasoning := "Using fallback to math solver",
               fallback_used := true,
               route_used := some RouteDecision.FALLBACK.value })

/-- A web search hit. -/
structure WebResult where
  title : String := ""
  snippet : String := ""
deriving Repr, DecidableEq

/-- One element of a response's `sources` list. -/
inductive SourceRef where
  | knowledge_base (content : Candidate)
  | web_search (results : List WebResult)
  | direct_solver
deriving Repr, DecidableEq

/-- The partial response dictionary returned by the `_process_*` helpers and
by `_combine_results`.  `error := none` models the absent `error` key of the
success-path dictionaries. -/
structure PartialResult where
  solution : String
  steps : List String
  sources : List SourceRef
  confidence : ℚ
  error : Option String := none
deriving Repr, DecidableEq

/-- `RoutingAgent._combine_results`:  KB solution with a labelled preamble,
web solution appended when non-empty and different, steps and sources
concatenated KB-then-web, confidence averaged. -/
def combine_results (kb_result web_result : PartialResult) : PartialResult :=
  let combined_solution := "Based on my knowledge base: " ++ kb_result.solution ++ "\n\n"
  let combined_solution :=
    if web_result.solution ≠ "" ∧ web_result.solution ≠ kb_result.solution then
      combined_solution ++ ("Additional information from web search: " ++ web_result.solution)
    else combined_solution
  { solution := combined_solution,
    steps := kb_result.steps ++ web_result.steps,
    sources := kb_result.sources ++ web_result.sources,
    confidence := (kb_result.confidence + web_result.confidence) / 2,
    error := none }

/-- A solver output dictionary from `MathSolverAgent`; `confidence` is
optional because the handlers read it with `solution.get("confidence", d)`. -/
structure SolveOut where
  solution : String
  steps : List String
  confidence : Option ℚ := none
deriving Repr, DecidableEq

/-- Outcomes of the collaborator calls made while processing one query:
knowledge-base search, the three solver entry points and web search.  An
`.error` value is a raised exception with its message. -/
structure Collaborators where
  kb_search : Except String (List Candidate)
  solve_from_knowledge : Except String SolveOut
  web_search : Except String (List WebResult)
  solve_from_web : Except String SolveOut
  solve_direct : Except String SolveOut

/-- `RoutingAgent._process_knowledge_base`: search, solve from the best hit,
degrade to a zero-confidence explanatory dictionary on any exception. -/
def process_knowledge_base (env : Collaborators) : PartialResult :=
  match env.kb_search with
  | .error e =>
      { solution := "Error accessing knowledge base: " ++ e,
        steps := [], sources := [], confidence := 0.0, error := some e }
  | .ok results =>
      match results with
      | [] =>
          { solution := "No relevant information found in knowledge base.",
            steps := [], sources := [], confidence := 0.0 }
      | best_result :: _ =>
          match env.solve_from_knowledge with
          | .error e =>
              { solution := "Error accessing knowledge base: " ++ e,
                steps := [], sources := [], confidence := 0.0, error := some e }
          | .ok solution =>
              { solution := solution.solution,
                steps := solution.steps,
                sources := [SourceRef.knowledge_base best_result],
                confidence := best_result.score }

/-- `RoutingAgent._process_web_search`. -/
def process_web_search (env : Collaborators) : PartialResult :=
  match env.web_search with
  | .error e =>
      { solution := "Error during web search: " ++ e,
        steps := [], sources := [], confidence := 0.0, error := some e }
  | .ok results =>
      match results with
      | [] =>
          { solution := "No relevant information found through web search.",
            steps := [], sources := [], confidence := 0.0 }
      | _ :: _ =>
          match env.solve_from_web with
          | .error e =>
              { solution := "Error during web search: " ++ e,
                steps := [], sources := [], confidence := 0.0, error := some e }
          | .ok solution =>
              { solution := solution.solution,
                steps := solution.steps,
                sources := [SourceRef.web_search (results.take 3)],
                confidence := solution.confidence.getD 0.5 }

/-- `RoutingAgent._process_fallback`. -/
def process_fallback (env : Collaborators) : PartialResult :=
  match env.solve_direct with
  | .error e =>
      { solution := "I'm having trouble solving this problem. Could you please rephrase your question or provide more context?",
        steps := ["Unable to process the query with available methods"],
        sources := [], confidence := 0.0, error := some e }
  | .ok solution =>
      { solution := solution.solution,
        steps := solution.steps,
        sources := [SourceRef.direct_solver],
        confidence := solution.confidence.getD 0.3 }

/-- The full response envelope returned by `process_query`: the keys
`query, route_used, routing_metadata, solution, steps, sources, confidence,
error` are the structure's fields. -/
structure QueryResponse where
  query : String
  route_used : String
  routing_metadata : RoutingMetadata
  solution : String
  steps : List String
  sources : List SourceRef
  confidence : ℚ
  error : Option String
deriving Repr, DecidableEq

/-- `response.update(result)` for a handler result: overwrite the four always
present keys and the `error` key when the handler dictionary carries one. -/
def applyResult (response : QueryResponse) (result : PartialResult) : QueryResponse :=
  { response with
      solution := result.solution,
      steps := result.steps,
      sources := result.sources,
      confidence := result.confidence,
      error := match result.error with
               | some e => some e
               | none => response.error }

/-- `RoutingAgent.process_query`: route, build the envelope, dispatch to the
handler for the chosen route (both handlers then `_combine_results` for
`HYBRID`), and return the updated envelope. -/
def process_query (query : String) (env : Collaborators) : QueryResponse :=
  let rd := route_query query env.kb_search
  let route_decision := rd.1
  let routing_metadata := { rd.2 with route_used := some route_decision.value }
  let response : QueryResponse :=
    { query := query,
      route_used := route_decision.value,
      routing_metadata := routing_metadata,
      solution := "",
      steps := [],
      sources := [],
      confidence := 0.0,
      error := none }
  match route_decision with
  | RouteDecision.KNOWLEDGE_BASE => applyResult response (process_knowledge_base env)
  | RouteDecision.WEB_SEARCH => applyResult response (process_web_search env)
  | RouteDecision.HYBRID =>
      applyResult response (combine_results (process_knowledge_base env) (process_web_search env))
  | RouteDecision.FALLBACK => applyResult response (process_fallback env)

/-! ### Feedback agent (`feedback_agent.py`) -/

/-- The user-supplied `feedback_data` dictionary; `none` models an absent key,
read in `collect_feedback` with `.get(key, default)`. -/
structure FeedbackInput where
  rating : Option ℤ := none
  helpful : Option Bool := none
  correct : Option Bool := none
  clear : Option Bool := none
  complete : Option Bool := none
  comments : Option String := none
  suggested_improvement : Option String := none
  alternative_solution : Option String := none
deriving Repr, DecidableEq

/-- The system response handed to `collect_feedback`; only the keys the agent
reads are modelled, with the `.get` defaults already irrelevant because every
field is present. -/
structure UserResponse where
  solution : String := ""
  steps : List String := []
  route_used : String := ""
  confidence : ℚ := 0.0
  processing_time : ℚ := 0
deriving Repr, DecidableEq

/-- The structured `feedback` sub-dictionary of a stored entry, after the
`.get` defaults of `collect_feedback` have been applied. -/
structure FeedbackRecord where
  rating : ℤ
  helpful : Bool
  correct : Bool
  clear : Bool
  complete : Bool
  comments : String
  suggested_improvement : String
  alternative_solution : String
deriving Repr, DecidableEq

/-- The `response` sub-dictionary of a stored entry. -/
structure EntryResponse where
  solution : String
  steps : List String
  route_used : String
  confidence : ℚ
deriving Repr, DecidableEq

/-- The `metadata` sub-dictionary of a stored entry (`route_confidence` is a
diagnostic pass-through and is omitted). -/
structure EntryMeta where
  response_time : ℚ
  user_satisfaction : ℤ
deriving Repr, DecidableEq

/-- A stored feedback entry. -/
structure FeedbackEntry where
  id : String
  timestamp : String
  query : String
  response : EntryResponse
  feedback : FeedbackRecord
  metadata : EntryMeta
deriving Repr, DecidableEq

/-- The `feedback_entry` dictionary built inside `collect_feedback`, applying
the documented `.get` defaults: rating `0`, helpful `False`, correct / clear /
complete `True`, text fields `''`. -/
def mkFeedbackEntry (id timestamp query : String) (response : UserResponse)
    (feedback_data : FeedbackInput) : FeedbackEntry :=
  { id := id,
    timestamp := timestamp,
    query := query,
    response :=
      { solution := response.solution,
        steps := response.steps,
        route_used := response.route_used,
        confidence := response.confidence },
    feedback :=
      { rating := feedback_data.rating.getD 0,
        helpful := feedback_data.helpful.getD false,
        correct := feedback_data.correct.getD true,
        clear := feedback_data.clear.getD true,
        complete := feedback_data.complete.getD true,
        comments := feedback_data.comments.getD "",
        suggested_improvement := feedback_data.suggested_improvement.getD "",
        alternative_solution := feedback_data.alternative_solution.getD "" },
    metadata :=
      { response_time := response.processing_time,
        user_satisfaction := feedback_data.rating.getD 0 } }

/-- `self.feedback_stats`, a `defaultdict(int)` over string keys. -/
abbrev Stats : Type := String → ℕ

/-- `stats[key] += 1`. -/
def bump (stats : Stats) (key : String) : Stats :=
  fun k => if k = key then stats k + 1 else stats k

/-- `FeedbackAgent._update_feedback_stats`. -/
def update_feedback_stats (feedback_entry : FeedbackEntry) (stats : Stats) : Stats :=
  let feedback := feedback_entry.feedback
  let route := feedback_entry.response.route_used
  let stats := bump stats "total_feedback"
  let stats := bump stats ("rating_" ++ toString feedback.rating)
  let stats := bump stats ("route_" ++ route ++ "_total")
  let stats := if feedback.helpful then bump stats ("route_" ++ route ++ "_helpful") else stats
  let stats := if feedback.correct then bump stats ("route_" ++ route ++ "_correct") else stats
  let stats :=
    if feedback.rating ≥ 4 then bump stats "high_satisfaction"
    else if feedback.rating ≤ 2 then bump stats "low_satisfaction"
    else stats
  let stats := if ¬ feedback.clear then bump stats "clarity_issues" else stats
  let stats := if ¬ feedback.complete then bump stats "completeness_issues" else stats
  stats

/-- An `ImprovementSuggestion` record; `user_correction` is only present on
`correctness` records (`none` = key absent). -/
structure Improvement where
  type : String
  route : String
  issue : String
  suggestion : String
  priority : String
  user_correction : Option String := none
deriving Repr, DecidableEq

/-- `FeedbackAgent._process_feedback_for_improvements`: the five conditional
appends, in source order. -/
def process_feedback_for_improvements (feedback_entry : FeedbackEntry) : List Improvement :=
  let feedback := feedback_entry.feedback
  let response := feedback_entry.response
  let improvements : List Improvement := []
  let improvements :=
    if feedback.rating ≤ 2 then
      improvements ++ [{ type := "low_satisfaction", route := response.route_used,
                         issue := "User gave low rating",
                         suggestion := "Review solution quality and approach",
                         priority := "high" }]
    else improvements
  let improvements :=
    if ¬ feedback.correct then
      improvements ++ [{ type := "correctness", route := response.route_used,
                         issue := "Solution marked as incorrect",
                         suggestion := "Verify computational accuracy and logic",
                         priority := "critical",
                         user_correction := some feedback.alternative_solution }]
    else improvements
  let improvements :=
    if ¬ feedback.clear then
      improvements ++ [{ type := "clarity", route := response.route_used,
                         issue := "Solution not clear to user",
                         suggestion := "Improve explanation and step-by-step breakdown",
                         priority := "medium" }]
    else improvements
  let improvements :=
    if ¬ feedback.complete then
      improvements ++ [{ type := "completeness", route := response.route_used,
                         issue := "Solution incomplete",
                         suggestion := "Provide more comprehensive solution steps",
                         priority := "medium" }]
    else improvements
  let improvements :=
    if response.confidence < 0.5 ∧ feedback.rating ≤ 3 then
      improvements ++ [{ type := "confidence_accuracy", route := response.route_used,
                         issue := "Low confidence correlated with poor user experience",
                         suggestion := "Improve routing decision accuracy",
                         priority := "high" }]
    else improvements
  improvements

/-- Decimal digit characters of `n`, most significant first (the characters
of Python's `str(n)` / `"%d" % n`). -/
def natDecChars (n : ℕ) : List Char :=
  ((Nat.digits 10 n).map Nat.digitChar).reverse

/-- Python's `f"{n:04d}"`: the decimal rendering of `n`, left-padded with
`'0'` to width four. -/
def fmt04 (n : ℕ) : String :=
  ⟨List.replicate (4 - (natDecChars n).length) '0' ++ natDecChars n⟩

/-- `FeedbackAgent._generate_feedback_id`:
`f"feedback_{timestamp}_{counter:04d}"` with
`counter = len(self.feedback_storage) + 1`.  The timestamp string is
`datetime.now().strftime("%Y%m%d_%H%M%S")`, always fifteen characters. -/
def generate_feedback_id (storage_size : ℕ) (timestamp : String) : String :=
  "feedback_" ++ timestamp ++ "_" ++ fmt04 (storage_size + 1)

/-- `FeedbackAgent._calculate_average_rating`: one pass over the `rating_1`
… `rating_5` buckets accumulating the weighted sum and the bucket total;
division only happens under the `total_count > 0` guard, so the checked
division can be read off as never failing. -/
def calculate_average_rating (stats : Stats) : ℚ :=
  let acc :=
    ([1, 2, 3, 4, 5] : List ℕ).foldl
      (fun acc i =>
        let count := stats ("rating_" ++ toString i)
        (acc.1 + i * count, acc.2 + count))
      ((0, 0) : ℕ × ℕ)
  if acc.2 > 0 then (acc.1 : ℚ) / (acc.2 : ℚ) else 0.0

/-- The number of stored ratings that fall in the `rating_1` … `rating_5`
buckets — the divisor (`total_count`) of `_calculate_average_rating`. -/
def rated_count (stats : Stats) : ℕ :=
  ([1, 2, 3, 4, 5] : List ℕ).foldl (fun acc i => acc + stats ("rating_" ++ toString i)) 0

/-- A division that raises `ZeroDivisionError` on a zero divisor, as Python's
`/` does; used to make every division of `get_feedback_analysis` explicit. -/
def checkedDiv (a b : ℚ) : Except String ℚ :=
  if b = 0 then Except.error "ZeroDivisionError" else Except.ok (a / b)

/-- One value of the `_analyze_route_performance` result dictionary. -/
structure RoutePerf where
  total_usage : ℕ
  helpful_rate : ℚ
  correct_rate : ℚ
  effectiveness_score : ℚ
deriving Repr, DecidableEq

/-- `FeedbackAgent._analyze_route_performance`; each division is guarded by
`total > 0`. -/
def analyze_route_performance (stats : Stats) : Except String (List (String × RoutePerf)) :=
  (["knowledge_base", "web_search", "hybrid", "fallback"] : List String).foldlM
    (fun performance route => do
      let total := stats ("route_" ++ route ++ "_total")
      if total > 0 then
        let helpful := stats ("route_" ++ route ++ "_helpful")
        let correct := stats ("route_" ++ route ++ "_correct")
        let helpful_rate ← checkedDiv helpful total
        let correct_rate ← checkedDiv correct total
        let effectiveness ← checkedDiv ((helpful : ℚ) + correct) (2 * total)
        pure (performance ++
          [(route, { total_usage := total, helpful_rate := helpful_rate,
                     correct_rate := correct_rate, effectiveness_score := effectiveness })])
      else pure performance)
    []

/-- One entry of the `_prioritize_improvements` output. -/
structure PriorityItem where
  type : String
  priority : String
  frequency : ℕ
  recommended_action : String
deriving Repr, DecidableEq

/-- `FeedbackAgent._get_recommended_action`: the fixed action table with its
default. -/
def get_recommended_action (improvement_type : String) : String :=
  if improvement_type = "correctness" then
    "Review mathematical computation logic and verify solutions against known answers"
  else if improvement_type = "clarity" then
    "Improve step-by-step explanations and use simpler language"
  else if improvement_type = "completeness" then
    "Ensure all solution steps are included and properly explained"
  else if improvement_type = "low_satisfaction" then
    "Conduct detailed review of user experience and solution quality"
  else if improvement_type = "confidence_accuracy" then
    "Calibrate routing confidence scores and improve decision thresholds"
  else "Investigate specific issues and implement targeted improvements"

/-- A `defaultdict(int)` keyed by improvement type, in first-occurrence
order. -/
def bumpAssoc (acc : List (String × ℕ)) (key : String) : List (String × ℕ) :=
  if acc.any (fun p => p.1 = key) then
    acc.map (fun p => if p.1 = key then (p.1, p.2 + 1) else p)
  else acc ++ [(key, 1)]

/-- `FeedbackAgent._prioritize_improvements`: group by priority, count by
type, sort each group by frequency descending (Python's stable `sorted` with
`reverse=True`), and keep the first ten. -/
def prioritize_improvements (suggestions : List Improvement) : List PriorityItem :=
  let prioritized :=
    (["critical", "high", "medium", "low"] : List String).foldl
      (fun prioritized priority =>
        let items := suggestions.filter (fun s => s.priority = priority)
        let type_counts := items.foldl (fun acc item => bumpAssoc acc item.type) []
        let sorted := type_counts.mergeSort (fun a b => decide (b.2 ≤ a.2))
        prioritized ++ sorted.map (fun p =>
          { type := p.1, priority := priority, frequency := p.2,
            recommended_action := get_recommended_action p.1 }))
      []
  prioritized.take 10

/-- The `_analyze_recent_trends` result. -/
inductive Trends where
  | noRecent (message : String)
  | report (recent_average_rating overall_average_rating : ℚ) (trend : String)
      (recent_feedback_count : ℕ)
deriving Repr, DecidableEq

/-- The last `n` elements of a list, Python's `l[-n:]`. -/
def lastN {α : Type} (l : List α) (n : ℕ) : List α :=
  l.drop (l.length - n)

/-- `FeedbackAgent._analyze_recent_trends`: average the ratings of the last
twenty stored entries and compare with the overall average. -/
def analyze_recent_trends (storage : List (String × FeedbackEntry)) (stats : Stats) :
    Except String Trends := do
  let recent_feedback := lastN (storage.map (fun p => p.2)) 20
  if recent_feedback = [] then
    pure (Trends.noRecent "No recent feedback available")
  else
    let recent_ratings := recent_feedback.map (fun f => f.feedback.rating)
    let recent_avg ← checkedDiv ((recent_ratings.foldl (· + ·) 0 : ℤ) : ℚ)
      (recent_feedback.length : ℚ)
    let overall_avg := calculate_average_rating stats
    let trend :=
      if recent_avg > overall_avg then "improving"
      else if recent_avg < overall_avg then "declining"
      else "stable"
    pure (Trends.report recent_avg overall_avg trend recent_feedback.length)

/-- The `overview` sub-dictionary of a feedback analysis. -/
structure Overview where
  total_feedback_entries : ℕ
  average_rating : ℚ
  high_satisfaction_rate : ℚ
  low_satisfaction_rate : ℚ
deriving Repr, DecidableEq

/-- The `get_feedback_analysis` result: either the empty-store sentinel
dictionary `{"message": "No feedback data available yet"}` or the full
report. -/
inductive FeedbackAnalysis where
  | noData (message : String)
  | report (overview : Overview) (route_performance : List (String × RoutePerf))
      (clarity_rate completeness_rate : ℚ)
      (improvement_priorities : List PriorityItem) (recent_trends : Trends)
deriving Repr, DecidableEq

/-- The in-memory state of one `FeedbackAgent`; the storage dictionary is an
insertion-ordered association list, as a Python `dict` is.  A fresh agent
(empty `__init__` state, no data file on disk) is `default`. -/
structure FeedbackAgentState where
  feedback_storage : List (String × FeedbackEntry) := []
  feedback_stats : Stats := fun _ => 0
  improvement_suggestions : List Improvement := []

instance : Inhabited FeedbackAgentState := ⟨{}⟩

/-- Python `dict` assignment `d[k] = v`: replace in place when the key
exists, append otherwise. -/
def dictInsert (d : List (String × FeedbackEntry)) (k : String) (v : FeedbackEntry) :
    List (String × FeedbackEntry) :=
  if d.any (fun p => p.1 = k) then d.map (fun p => if p.1 = k then (k, v) else p)
  else d ++ [(k, v)]

/-- The dictionary returned by a successful `collect_feedback` call. -/
structure CollectResult where
  feedback_id : String
  status : String
  improvements_identified : ℕ
  suggestions : List Improvement
deriving Repr, DecidableEq

/-- `FeedbackAgent.collect_feedback`: generate an id, build the entry, store
it, update the statistics, derive improvement suggestions.  `now` is the
`strftime("%Y%m%d_%H%M%S")` timestamp of the call (the persistence to disk is
I/O and is not modelled). -/
def collect_feedback (state : FeedbackAgentState) (now query : String)
    (response : UserResponse) (feedback_data : FeedbackInput) :
    FeedbackAgentState × CollectResult :=
  let feedback_id := generate_feedback_id state.feedback_storage.length now
  let feedback_entry := mkFeedbackEntry feedback_id now query response feedback_data
  let storage := dictInsert state.feedback_storage feedback_id feedback_entry
  let stats := update_feedback_stats feedback_entry state.feedback_stats
  let improvements := process_feedback_for_improvements feedback_entry
  ({ feedback_storage := storage,
     feedback_stats := stats,
     improvement_suggestions := state.improvement_suggestions ++ improvements },
   { feedback_id := feedback_id,
     status := "collected",
     improvements_identified := improvements.length,
     suggestions := improvements })

/-- `FeedbackAgent.get_feedback_analysis`: empty-store sentinel on
`total_feedback == 0`, otherwise the full report; every division the code
performs is a `checkedDiv`. -/
def get_feedback_analysis (state : FeedbackAgentState) : Except String FeedbackAnalysis :=
  let total_feedback := state.feedback_stats "total_feedback"
  if total_feedback = 0 then
    Except.ok (FeedbackAnalysis.noData "No feedback data available yet")
  else do
    let avg_rating := calculate_average_rating state.feedback_stats
    let route_performance ← analyze_route_performance state.feedback_stats
    let improvement_priorities := prioritize_improvements state.improvement_suggestions
    let high_rate ← checkedDiv (state.feedback_stats "high_satisfaction") total_feedback
    let low_rate ← checkedDiv (state.feedback_stats "low_satisfaction") total_feedback
    let clarity_rate ← checkedDiv (state.feedback_stats "clarity_issues") total_feedback
    let completeness_rate ← checkedDiv (state.feedback_stats "completeness_issues") total_feedback
    let recent_trends ← analyze_recent_trends state.feedback_storage state.feedback_stats
    pure (FeedbackAnalysis.report
      { total_feedback_entries := total_feedback,
        average_rating := avg_rating,
        high_satisfaction_rate := high_rate,
        low_satisfaction_rate := low_rate }
      route_performance clarity_rate completeness_rate
      improvement_priorities recent_trends)

/-- The arguments of one `collect_feedback` call. -/
structure CollectCall where
  timestamp : String
  query : String
  response : UserResponse
  feedback_data : FeedbackInput

/-- Run a sequence of `collect_feedback` calls against one store. -/
def runCollect (state : FeedbackAgentState) : List CollectCall → FeedbackAgentState
  | [] => state
  | c :: cs =>
      runCollect (collect_feedback state c.timestamp c.query c.response c.feedback_data).1 cs

/-- The knowledge-base confidence as the specification words it: the maximum
raw relevance score among candidates (`0` if there are none), plus `0.1` per
distinct math-topic keyword present in the lowercased query, plus `0.1` if any
computational-intent word is present, clamped to `1.0`.  Stated for comparison
with `calculate_kb_confidence`. -/
def spec_kb_confidence (results : List Candidate) (query : String) : ℚ :=
  let query_lower := pyLower query
  let M := listMax (results.map (fun result => result.score))
  let B : ℚ := 0.1 *
    (["derivative", "integral", "quadratic", "linear", "equation", "formula"].countP
      (fun topic => strContains query_lower topic))
  let C : ℚ :=
    if ["solve", "calculate", "find", "compute"].any (fun word => strContains query_lower word)
    then 0.1 else 0
  pyMin (M + B + C) 1.0

/-! ### Helper lemmas -/

theorem pyMin_le_right (a b : ℚ) : pyMin a b ≤ b := by
  unfold pyMin; split_ifs with h
  · exact h
  · exact le_refl b

theorem pyMin_nonneg {a b : ℚ} (ha : 0 ≤ a) (hb : 0 ≤ b) : 0 ≤ pyMin a b := by
  unfold pyMin; split_ifs <;> assumption

theorem foldl_if_add_eq_countP {α : Type} (p : α → Bool) (c : ℚ) :
    ∀ (l : List α) (s : ℚ),
      l.foldl (fun acc a => if p a then acc + c else acc) s = s + c * (l.countP p) := by
  intro l
  induction l with
  | nil => intro s; simp
  | cons x xs ih =>
      intro s
      simp only [List.foldl_cons, List.countP_cons]
      by_cases h : p x
      · simp only [h, if_true]
        rw [ih]
        push_cast
        ring
      · simp only [h, if_false]
        rw [ih]
        push_cast
        ring

theorem foldl_max_init_le : ∀ (xs : List ℚ) (x : ℚ), x ≤ xs.foldl max x := by
  intro xs
  induction xs with
  | nil => intro x; exact le_refl x
  | cons y ys ih =>
      intro x
      calc x ≤ max x y := le_max_left x y
        _ ≤ ys.foldl max (max x y) := ih (max x y)

theorem listMax_nonneg {l : List ℚ} (hne : l ≠ []) (h : ∀ x ∈ l, 0 ≤ x) :
    0 ≤ listMax l := by
  match l, hne with
  | x :: xs, _ =>
      have hx : 0 ≤ x := h x (List.mem_cons_self x xs)
      exact le_trans hx (foldl_max_init_le xs x)

/-- Two strings whose data lists start with different characters differ. -/
theorem ne_of_head_ne (s t : String) (c d : Char) (cs ds : List Char)
    (hs : s.data = c :: cs) (ht : t.data = d :: ds) (h : c ≠ d) : s ≠ t := by
  intro he
  rw [he, ht] at hs
  injection hs with h1 _
  exact h h1.symm

/-- Two strings whose data lists differ at the second character differ. -/
theorem ne_of_second_ne (s t : String) (c1 c2 d1 d2 : Char) (cs ds : List Char)
    (hs : s.data = c1 :: c2 :: cs) (ht : t.data = d1 :: d2 :: ds) (h : c2 ≠ d2) : s ≠ t := by
  intro he
  rw [he, ht] at hs
  injection hs with h1 h2
  injection h2 with h3 _
  exact h h3.symm

/-- `_update_feedback_stats` on an entry with rating `0` bumps the
`total_feedback` and `rating_0` counters and leaves the `rating_1` …
`rating_5` buckets untouched, whatever the route string and quality flags. -/
theorem update_rating0_keys (entry : FeedbackEntry) (stats : Stats)
    (h0 : entry.feedback.rating = 0) :
    update_feedback_stats entry stats "total_feedback" = stats "total_feedback" + 1 ∧
    update_feedback_stats entry stats "rating_0" = stats "rating_0" + 1 ∧
    ∀ k ∈ (["rating_1", "rating_2", "rating_3", "rating_4", "rating_5"] : List String),
      update_feedback_stats entry stats k = stats k := by
  have e0 : ("rating_" ++ toString (0 : ℤ)) = "rating_0" := by decide
  have hRt : ∀ sfx : String, "total_feedback" ≠ "route_" ++ entry.response.route_used ++ sfx :=
    fun sfx => ne_of_head_ne _ _ 't' 'r' _
      (('o' :: 'u' :: 't' :: 'e' :: '_' :: entry.response.route_used.data) ++ sfx.data)
      rfl (by rw [String.data_append, String.data_append]; rfl) (by decide)
  refine ⟨?_, ?_, ?_⟩
  · simp [update_feedback_stats, h0, e0, ite_apply, bump,
      hRt "_total", hRt "_helpful", hRt "_correct"]
  · have hr0 : ∀ sfx : String, "rating_0" ≠ "route_" ++ entry.response.route_used ++ sfx :=
      fun sfx => ne_of_second_ne _ _ 'r' 'a' 'r' 'o' _
        (('u' :: 't' :: 'e' :: '_' :: entry.response.route_used.data) ++ sfx.data)
        rfl (by rw [String.data_append, String.data_append]; rfl) (by decide)
    simp [update_feedback_stats, h0, e0, ite_apply, bump,
      hr0 "_total", hr0 "_helpful", hr0 "_correct"]
  · intro k hk
    have hrk : ∀ sfx : String, k ≠ "route_" ++ entry.response.route_used ++ sfx := by
      fin_cases hk <;>
        exact fun sfx => ne_of_second_ne _ _ 'r' 'a' 'r' 'o' _
          (('u' :: 't' :: 'e' :: '_' :: entry.response.route_used.data) ++ sfx.data)
          rfl (by rw [String.data_append, String.data_append]; rfl) (by decide)
    fin_cases hk <;>
      simp [update_feedback_stats, h0, e0, ite_apply, bump,
        hrk "_total", hrk "_helpful", hrk "_correct"]

theorem map_digitChar_inj : ∀ (l1 l2 : List ℕ), (∀ d ∈ l1, d < 10) → (∀ d ∈ l2, d < 10) →
    l1.map Nat.digitChar = l2.map Nat.digitChar → l1 = l2 := by
  intro l1
  induction l1 with
  | nil =>
      intro l2 _ _ h
      cases l2 with
      | nil => rfl
      | cons d ds => simp at h
  | cons d ds ih =>
      intro l2 h1 h2 h
      cases l2 with
      | nil => simp at h
      | cons e es =>
          simp only [List.map_cons, List.cons.injEq] at h
          have hde : d = e := by
            have hd : d < 10 := h1 d (List.mem_cons_self d ds)
            have he : e < 10 := h2 e (List.mem_cons_self e es)
            have key : ∀ a < 10, ∀ b < 10, Nat.digitChar a = Nat.digitChar b → a = b := by decide
            exact key d hd e he h.1
          have hrest : ds = es :=
            ih es (fun x hx => h1 x (List.mem_cons_of_mem _ hx))
              (fun x hx => h2 x (List.mem_cons_of_mem _ hx)) h.2
          rw [hde, hrest]

theorem natDecChars_inj {a b : ℕ} (h : natDecChars a = natDecChars b) : a = b := by
  have hmaps : (Nat.digits 10 a).map Nat.digitChar = (Nat.digits 10 b).map Nat.digitChar := by
    have h2 := congrArg List.reverse h
    simpa [natDecChars] using h2
  have hdig : Nat.digits 10 a = Nat.digits 10 b :=
    map_digitChar_inj _ _ (fun d hd => Nat.digits_lt_base (by norm_num) hd)
      (fun d hd => Nat.digits_lt_base (by norm_num) hd) hmaps
  calc a = Nat.ofDigits 10 (Nat.digits 10 a) := (Nat.ofDigits_digits 10 a).symm
    _ = Nat.ofDigits 10 (Nat.digits 10 b) := by rw [hdig]
    _ = b := Nat.ofDigits_digits 10 b

theorem natDecChars_head (n : ℕ) (hn : n ≠ 0) :
    ∃ c cs, natDecChars n = c :: cs ∧ c ≠ '0' := by
  rcases List.eq_nil_or_concat (Nat.digits 10 n) with hd | ⟨L, d, hd0⟩
  · exact absurd hd (by simpa [Nat.digits_ne_nil_iff_ne_zero] using hn)
  · have hd : Nat.digits 10 n = L ++ [d] := by simpa [List.concat_eq_append] using hd0
    have hdmem : d ∈ Nat.digits 10 n := by simp [hd]
    have hdlt : d < 10 := Nat.digits_lt_base (by norm_num) hdmem
    have key : ∀ (l : List ℕ) (h : l ≠ []), l = L ++ [d] → l.getLast h = d := by
      intro l h hl
      subst hl
      exact List.getLast_concat _
    have hdne : d ≠ 0 := by
      intro h0
      apply Nat.getLast_digit_ne_zero 10 hn
      rw [key (Nat.digits 10 n) (by simp [hd]) hd]
      exact h0
    refine ⟨Nat.digitChar d, (L.map Nat.digitChar).reverse, ?_, ?_⟩
    · simp [natDecChars, hd]
    · have key2 : ∀ x < 10, x ≠ 0 → Nat.digitChar x ≠ '0' := by decide
      exact key2 d hdlt hdne

theorem dropWhile_replicate_append (p : Char → Bool) (c : Char) (hp : p c = true) :
    ∀ (k : ℕ) (l : List Char), ((List.replicate k c) ++ l).dropWhile p = l.dropWhile p := by
  intro k
  induction k with
  | zero => intro l; simp
  | succ m ih => intro l; simp [List.replicate_succ, List.dropWhile_cons, hp, ih]

theorem fmt04_inj {a b : ℕ} (ha : a ≠ 0) (hb : b ≠ 0) (h : fmt04 a = fmt04 b) : a = b := by
  apply natDecChars_inj
  obtain ⟨ca, csa, hca, hane⟩ := natDecChars_head a ha
  obtain ⟨cb, csb, hcb, hbne⟩ := natDecChars_head b hb
  have hdata : (fmt04 a).data = (fmt04 b).data := by rw [h]
  have hfa : (fmt04 a).data =
      List.replicate (4 - (natDecChars a).length) '0' ++ natDecChars a := rfl
  have hfb : (fmt04 b).data =
      List.replicate (4 - (natDecChars b).length) '0' ++ natDecChars b := rfl
  have da : (natDecChars a).dropWhile (fun x => x == '0') = natDecChars a := by
    rw [hca, List.dropWhile_cons]
    simp [hane]
  have db : (natDecChars b).dropWhile (fun x => x == '0') = natDecChars b := by
    rw [hcb, List.dropWhile_cons]
    simp [hbne]
  have e1 : natDecChars a = ((fmt04 a).data).dropWhile (fun x => x == '0') := by
    rw [hfa, dropWhile_replicate_append _ '0' rfl, da]
  have e2 : natDecChars b = ((fmt04 b).data).dropWhile (fun x => x == '0') := by
    rw [hfb, dropWhile_replicate_append _ '0' rfl, db]
  rw [e1, e2, hdata]

theorem generate_feedback_id_inj {n m : ℕ} {ts1 ts2 : String}
    (hlen : ts1.length = ts2.length)
    (h : generate_feedback_id n ts1 = generate_feedback_id m ts2) : n = m := by
  have hdata := congrArg String.data h
  simp only [generate_feedback_id, String.data_append] at hdata
  have hlend : ts1.data.length = ts2.data.length := hlen
  obtain ⟨h1, h2⟩ := List.append_inj hdata (by simp [List.length_append, hlend])
  have hfmt : fmt04 (n + 1) = fmt04 (m + 1) := String.ext h2
  have := fmt04_inj (Nat.succ_ne_zero n) (Nat.succ_ne_zero m) hfmt
  omega


theorem collect_step_storage (state : FeedbackAgentState) (now query : String)
    (response : UserResponse) (fb : FeedbackInput)
    (hfresh : ∀ p ∈ state.feedback_storage,
      p.1 ≠ generate_feedback_id state.feedback_storage.length now) :
    (collect_feedback state now query response fb).1.feedback_storage =
      state.feedback_storage ++
        [(generate_feedback_id state.feedback_storage.length now,
          mkFeedbackEntry (generate_feedback_id state.feedback_storage.length now)
            now query response fb)] := by
  have hany : state.feedback_storage.any
      (fun p => p.1 = generate_feedback_id state.feedback_storage.length now) = false := by
    rw [List.any_eq_false]
    intro p hp
    simpa using hfresh p hp
  simp [collect_feedback, dictInsert, hany]

theorem runCollect_invariant :
    ∀ (calls : List CollectCall) (state : FeedbackAgentState),
      (∀ c ∈ calls, c.timestamp.length = 15) →
      (∀ i (h : i < state.feedback_storage.length),
        ∃ ts, ts.length = 15 ∧
          (state.feedback_storage.get ⟨i, h⟩).1 = generate_feedback_id i ts) →
      (∀ i (h : i < (runCollect state calls).feedback_storage.length),
        ∃ ts, ts.length = 15 ∧
          ((runCollect state calls).feedback_storage.get ⟨i, h⟩).1 =
            generate_feedback_id i ts) := by
  intro calls
  induction calls with
  | nil => intro state _ hinv; exact hinv
  | cons c cs ih =>
      intro state hts hinv
      have hts15 : c.timestamp.length = 15 := hts c (List.mem_cons_self c cs)
      have hfresh : ∀ p ∈ state.feedback_storage,
          p.1 ≠ generate_feedback_id state.feedback_storage.length c.timestamp := by
        intro p hp heq
        obtain ⟨j, hjget⟩ := List.mem_iff_get.mp hp
        obtain ⟨ts, hl, hk⟩ := hinv j.1 j.2
        rw [hjget] at hk
        rw [hk] at heq
        have := generate_feedback_id_inj (by rw [hl, hts15]) heq
        omega
      have hstep := collect_step_storage state c.timestamp c.query c.response c.feedback_data hfresh
      apply ih
      · intro c' hc'
        exact hts c' (List.mem_cons_of_mem _ hc')
      · intro i h
        have hget := List.get_of_eq hstep ⟨i, h⟩
        rcases Nat.lt_or_ge i state.feedback_storage.length with hi | hi
        · obtain ⟨ts, hl, hk⟩ := hinv i hi
          refine ⟨ts, hl, ?_⟩
          rw [hget, List.get_append i hi]
          exact hk
        · have hieq : i = state.feedback_storage.length := by
            have hlen := h
            rw [hstep] at hlen
            simp only [List.length_append, List.length_singleton] at hlen
            omega
          refine ⟨c.timestamp, hts15, ?_⟩
          rw [hget, List.get_last (by simpa using Nat.not_lt.mpr hi)]
          rw [hieq]

/-! ### Claim theorems -/

/-- C1.  With the knowledge-base confidence and web-need score computed for
the query, `route_query` follows the transition table: confidence at least
`0.7` routes to the knowledge base regardless of the web-need score; otherwise
web-need at least `0.5` routes to hybrid when the KB confidence exceeds `0.3`
and to web search when it does not; otherwise the route is fallback with
`fallback_used` set. -/
theorem C1_route_decision_table (query : String) (results : List Candidate)
    (kb_conf web_need : ℚ)
    (hkb : calculate_kb_confidence results query = kb_conf)
    (hweb : should_use_web_search query = web_need) :
    (0.7 ≤ kb_conf → (route_query query (Except.ok results)).1 = RouteDecision.KNOWLEDGE_BASE) ∧
    (kb_conf < 0.7 → 0.5 ≤ web_need → 0.3 < kb_conf →
      (route_query query (Except.ok results)).1 = RouteDecision.HYBRID) ∧
    (kb_conf < 0.7 → 0.5 ≤ web_need → kb_conf ≤ 0.3 →
      (route_query query (Except.ok results)).1 = RouteDecision.WEB_SEARCH) ∧
    (kb_conf < 0.7 → web_need < 0.5 →
      (route_query query (Except.ok results)).1 = RouteDecision.FALLBACK ∧
      (route_query query (Except.ok results)).2.fallback_used = true) := by
  subst hkb
  subst hweb
  refine ⟨fun h1 => ?_, fun h1 h2 h3 => ?_, fun h1 h2 h3 => ?_, fun h1 h2 => ?_⟩ <;>
    simp only [route_query, confidence_threshold] <;>
    split_ifs <;>
    first
      | rfl
      | exact ⟨rfl, rfl⟩
      | (exfalso; linarith)

/-- C1, witness: a candidate scored `4/5` on a keyword-free query reaches the
`0.7` threshold and routes to the knowledge base. -/
theorem C1_route_decision_table_witness :
    (0.7 : ℚ) ≤ 4/5 ∧
    (route_query "x" (Except.ok [{score := 4/5, content := ""}])).1 =
      RouteDecision.KNOWLEDGE_BASE :=
  ⟨by norm_num,
   (C1_route_decision_table "x" [{score := 4/5, content := ""}] (4/5)
      (should_use_web_search "x")
      (by
        have hval : calculate_kb_confidence [{score := 4/5, content := ""}] "x" =
            pyMin (4/5 + 0.0) 1.0 := rfl
        rw [hval]
        norm_num [pyMin])
      rfl).1 (by norm_num)⟩

/-- C5.  An exception raised while computing the routing scores is caught
inside `route_query`: the result is the fallback decision with
`fallback_used = true` and the error text recorded in `reasoning`. -/
theorem C5_route_query_catches (query e : String) :
    route_query query (Except.error e) =
      (RouteDecision.FALLBACK,
       { query := query, kb_score := none, web_score := none,
         reasoning := "Error occurred, using fallback: " ++ e,
         fallback_used := true,
         route_used := some "fallback" }) := rfl

/-- C4.  For any two source results, the combined result averages the two
confidences exactly, concatenates the steps KB-first in their original orders,
and appends the web solution only when it differs from the KB solution by
exact string inequality (if the two solutions are equal the combined solution
is just the labelled KB preamble). -/
theorem C4_combine_results (a b : PartialResult) :
    (combine_results a b).confidence = (a.confidence + b.confidence) / 2 ∧
    (combine_results a b).steps = a.steps ++ b.steps ∧
    (b.solution = a.solution →
      (combine_results a b).solution = "Based on my knowledge base: " ++ a.solution ++ "\n\n") := by
  refine ⟨rfl, rfl, fun heq => ?_⟩
  unfold combine_results
  simp only [heq]
  rw [if_neg]
  intro hcon
  exact hcon.2 rfl

/-- C2, counterexample.  As stated over arbitrary relevance scores the claim
fails: a single candidate with score `-1` and a keyword-free query makes
`_calculate_kb_confidence` return `-1`, below `0.0` (the code clamps only from
above). -/
theorem C2_counterexample :
    calculate_kb_confidence [{score := -1, content := ""}] "x" < 0 := by
  have hval : calculate_kb_confidence [{score := -1, content := ""}] "x" =
      pyMin (-1 + 0.0) 1.0 := rfl
  rw [hval]
  norm_num [pyMin]

/-- C2, amended.  `_should_use_web_search` always lands in `[0, 1]`, and
`_calculate_kb_confidence` never exceeds `1`; its result is nonnegative
whenever every candidate's relevance score is nonnegative (the unrestricted
lower bound of the original claim fails, see the counterexample). -/
theorem C2_amended_score_bounds :
    (∀ query : String,
      0 ≤ should_use_web_search query ∧ should_use_web_search query ≤ 1) ∧
    (∀ (results : List Candidate) (query : String),
      calculate_kb_confidence results query ≤ 1) ∧
    (∀ (results : List Candidate) (query : String),
      (∀ r ∈ results, 0 ≤ r.score) → 0 ≤ calculate_kb_confidence results query) := by
  refine ⟨fun query => ?_, fun results query => ?_, fun results query h => ?_⟩
  · simp only [should_use_web_search]
    simp only [foldl_if_add_eq_countP]
    constructor
    · refine pyMin_nonneg ?_ (by norm_num)
      split_ifs <;> positivity
    · exact le_trans (pyMin_le_right _ _) (by norm_num)
  · simp only [calculate_kb_confidence]
    split_ifs <;> first
      | exact le_trans (pyMin_le_right _ _) (by norm_num)
      | norm_num
  · simp only [calculate_kb_confidence]
    have hM : ¬ results = [] → 0 ≤ listMax (results.map (fun result => result.score)) := by
      intro hres
      refine listMax_nonneg ?_ ?_
      · simpa using hres
      · intro x hx
        obtain ⟨r, hr, rfl⟩ := List.mem_map.mp hx
        exact h r hr
    have hc : (0 : ℚ) ≤ 0.1 *
        ((["derivative", "integral", "quadratic", "linear", "equation", "formula"].countP
          (fun topic => strContains (pyLower query) topic) : ℕ) : ℚ) := by positivity
    simp only [foldl_if_add_eq_countP]
    split_ifs with hres hany
    · norm_num
    · have h1 := hM hres
      refine pyMin_nonneg ?_ (by norm_num)
      linarith
    · have h1 := hM hres
      refine pyMin_nonneg ?_ (by norm_num)
      linarith

/-- C2, witness for the amended claim's hypothesis: a single candidate with
nonnegative score yields a nonnegative confidence. -/
theorem C2_amended_score_bounds_witness :
    0 ≤ calculate_kb_confidence [{score := 1/2, content := ""}] "x" :=
  C2_amended_score_bounds.2.2 [{score := 1/2, content := ""}] "x"
    (by
      intro r hr
      have : r = {score := 1/2, content := ""} := by simpa using hr
      rw [this]
      norm_num)

/-- C3, counterexample.  On an empty candidate list the code returns `0.0`
immediately, whereas the claimed formula still adds the keyword boosts: on the
query `"solve"` the formula gives `0.1` but `_calculate_kb_confidence` gives
`0`. -/
theorem C3_counterexample :
    calculate_kb_confidence [] "solve" ≠ spec_kb_confidence [] "solve" := by
  have h1 : calculate_kb_confidence [] "solve" = 0.0 := rfl
  have h2 : spec_kb_confidence [] "solve" =
      pyMin (0 + 0.1 * ((0 : ℕ) : ℚ) + 0.1) 1.0 := rfl
  rw [h1, h2]
  norm_num [pyMin]

/-- C3, amended.  For a NON-EMPTY candidate list the knowledge-base
confidence equals `min(1, M + B + C)` with `M` the maximum raw score, `B` the
`0.1`-per-topic-keyword boost and `C` the `0.1` computational-intent boost;
on an empty list the code returns `0` before any boost is applied. -/
theorem C3_amended_kb_confidence_formula (results : List Candidate) (query : String)
    (hne : results ≠ []) :
    calculate_kb_confidence results query = spec_kb_confidence results query := by
  simp only [calculate_kb_confidence, spec_kb_confidence]
  rw [if_neg hne, foldl_if_add_eq_countP]
  split_ifs
  · congr 1
    ring
  · congr 1
    ring

/-- C3, witness: the amended formula evaluated on a one-candidate list. -/
theorem C3_amended_kb_confidence_formula_witness :
    calculate_kb_confidence [{score := 1/2, content := ""}] "x" =
      spec_kb_confidence [{score := 1/2, content := ""}] "x" :=
  C3_amended_kb_confidence_formula [{score := 1/2, content := ""}] "x"
    (List.cons_ne_nil _ _)

/-- C7, counterexample.  With rating `1`, `correct = false` and the other
flags at their defaults, `collect_feedback` is not limited to two suggestions:
when the stored response has confidence below `0.5` (here the default `0.0`)
the low-confidence rule fires too and three suggestions are produced. -/
theorem C7_counterexample :
    ((collect_feedback default "20240101_000000" "q" {}
        {rating := some 1, correct := some false}).2.suggestions.map
      (fun i => (i.type, i.priority))) =
      [("low_satisfaction", "high"), ("correctness", "critical"),
       ("confidence_accuracy", "high")] := by
  norm_num [collect_feedback, process_feedback_for_improvements, mkFeedbackEntry]

/-- C7, amended.  For feedback with rating `1`, `correct = false` and the
remaining quality flags at their defaults, `collect_feedback` produces exactly
the two suggestions `low_satisfaction`/`high` and `correctness`/`critical`
PROVIDED the stored response's confidence is at least `0.5`; below that a
third `confidence_accuracy` suggestion is added (see the counterexample). -/
theorem C7_amended_two_suggestions (state : FeedbackAgentState) (now query : String)
    (response : UserResponse) (fb : FeedbackInput)
    (hr : fb.rating = some 1) (hc : fb.correct = some false)
    (hcl : fb.clear.getD true = true) (hcp : fb.complete.getD true = true)
    (hconf : 0.5 ≤ response.confidence) :
    ((collect_feedback state now query response fb).2.suggestions.map
        (fun i => (i.type, i.priority))) =
      [("low_satisfaction", "high"), ("correctness", "critical")] ∧
    (collect_feedback state now query response fb).2.suggestions.length = 2 := by
  have hnc : ¬ response.confidence < 1 / 2 := not_lt.mpr (by norm_num at hconf ⊢; linarith)
  constructor <;>
    · norm_num [collect_feedback, process_feedback_for_improvements, mkFeedbackEntry,
        hr, hc, hcl, hcp]
      rw [if_neg hnc]
      simp

/-- C7, witness: a concrete submission with rating `1`, `correct = false` and
response confidence `0.6` yields exactly the two expected suggestions. -/
theorem C7_amended_two_suggestions_witness :
    ((collect_feedback default "20240101_000000" "q" {confidence := 0.6}
        {rating := some 1, correct := some false}).2.suggestions.map
      (fun i => (i.type, i.priority))) =
      [("low_satisfaction", "high"), ("correctness", "critical")] ∧
    (collect_feedback default "20240101_000000" "q" {confidence := 0.6}
        {rating := some 1, correct := some false}).2.suggestions.length = 2 :=
  C7_amended_two_suggestions default "20240101_000000" "q" {confidence := 0.6}
    {rating := some 1, correct := some false} rfl rfl rfl rfl (by norm_num)

/-- C8.  When the `total_feedback` counter is zero, `get_feedback_analysis`
returns the empty-state sentinel and performs none of its (checked) divisions:
the result is a plain `ok`, not a `ZeroDivisionError`. -/
theorem C8_empty_store_sentinel (state : FeedbackAgentState)
    (h : state.feedback_stats "total_feedback" = 0) :
    get_feedback_analysis state =
      Except.ok (FeedbackAnalysis.noData "No feedback data available yet") := by
  simp [get_feedback_analysis, h]

/-- C8, witness: the fresh agent state has a zero counter and gets the
sentinel. -/
theorem C8_empty_store_sentinel_witness :
    get_feedback_analysis default =
      Except.ok (FeedbackAnalysis.noData "No feedback data available yet") :=
  C8_empty_store_sentinel default rfl

/-- C10.  A feedback submission that omits the rating is recorded with
rating `0`: it increments `total_feedback` and the `rating_0` bucket, leaves
the `rating_1` … `rating_5` buckets — and hence the average rating and its
divisor — unchanged, so afterwards the average is taken over strictly fewer
entries than `total_feedback` (given the invariant that the rated count never
exceeds the total). -/
theorem C10_missing_rating_zero_bucket (state : FeedbackAgentState)
    (now query : String) (response : UserResponse) (fb : FeedbackInput)
    (hr : fb.rating = none) :
    (mkFeedbackEntry (generate_feedback_id state.feedback_storage.length now)
        now query response fb).feedback.rating = 0 ∧
    (collect_feedback state now query response fb).1.feedback_stats "total_feedback"
      = state.feedback_stats "total_feedback" + 1 ∧
    (collect_feedback state now query response fb).1.feedback_stats "rating_0"
      = state.feedback_stats "rating_0" + 1 ∧
    calculate_average_rating (collect_feedback state now query response fb).1.feedback_stats
      = calculate_average_rating state.feedback_stats ∧
    rated_count (collect_feedback state now query response fb).1.feedback_stats
      = rated_count state.feedback_stats ∧
    (rated_count state.feedback_stats ≤ state.feedback_stats "total_feedback" →
      rated_count (collect_feedback state now query response fb).1.feedback_stats
        < (collect_feedback state now query response fb).1.feedback_stats "total_feedback") := by
  have h0 : (mkFeedbackEntry (generate_feedback_id state.feedback_storage.length now)
      now query response fb).feedback.rating = 0 := by
    simp [mkFeedbackEntry, hr]
  have hstats : (collect_feedback state now query response fb).1.feedback_stats =
      update_feedback_stats
        (mkFeedbackEntry (generate_feedback_id state.feedback_storage.length now)
          now query response fb)
        state.feedback_stats := rfl
  obtain ⟨ht, hr0, hpres⟩ := update_rating0_keys
    (mkFeedbackEntry (generate_feedback_id state.feedback_storage.length now)
      now query response fb)
    state.feedback_stats h0
  have k1 : ("rating_" ++ toString (1 : ℕ)) = "rating_1" := by decide
  have k2 : ("rating_" ++ toString (2 : ℕ)) = "rating_2" := by decide
  have k3 : ("rating_" ++ toString (3 : ℕ)) = "rating_3" := by decide
  have k4 : ("rating_" ++ toString (4 : ℕ)) = "rating_4" := by decide
  have k5 : ("rating_" ++ toString (5 : ℕ)) = "rating_5" := by decide
  have p1 := hpres "rating_1" (by simp)
  have p2 := hpres "rating_2" (by simp)
  have p3 := hpres "rating_3" (by simp)
  have p4 := hpres "rating_4" (by simp)
  have p5 := hpres "rating_5" (by simp)
  have hrc : rated_count (update_feedback_stats
      (mkFeedbackEntry (generate_feedback_id state.feedback_storage.length now)
        now query response fb) state.feedback_stats)
      = rated_count state.feedback_stats := by
    simp only [rated_count, List.foldl_cons, List.foldl_nil, k1, k2, k3, k4, k5,
      p1, p2, p3, p4, p5]
  have havg : calculate_average_rating (update_feedback_stats
      (mkFeedbackEntry (generate_feedback_id state.feedback_storage.length now)
        now query response fb) state.feedback_stats)
      = calculate_average_rating state.feedback_stats := by
    simp only [calculate_average_rating, List.foldl_cons, List.foldl_nil, k1, k2, k3, k4, k5,
      p1, p2, p3, p4, p5]
  refine ⟨h0, ?_, ?_, ?_, ?_, ?_⟩
  · rw [hstats]; exact ht
  · rw [hstats]; exact hr0
  · rw [hstats]; exact havg
  · rw [hstats]; exact hrc
  · intro hinv
    rw [hstats, hrc, ht]
    omega

/-- C10, witness: a rating-free submission against the fresh store bumps the
total to one while the rated count stays zero. -/
theorem C10_missing_rating_zero_bucket_witness :
    (collect_feedback (default : FeedbackAgentState) "20240101_000000" "q" {} {}).1.feedback_stats
        "total_feedback"
      = (default : FeedbackAgentState).feedback_stats "total_feedback" + 1 ∧
    rated_count (collect_feedback (default : FeedbackAgentState) "20240101_000000" "q" {} {}).1.feedback_stats
      < (collect_feedback (default : FeedbackAgentState) "20240101_000000" "q" {} {}).1.feedback_stats
        "total_feedback" :=
  ⟨(C10_missing_rating_zero_bucket default "20240101_000000" "q" {} {} rfl).2.1,
   (C10_missing_rating_zero_bucket default "20240101_000000" "q" {} {} rfl).2.2.2.2.2
     (by decide)⟩

/-- C6.  `process_query` is a total function of the collaborator outcomes —
every raise site sits inside a `try` that this embedding models as a `match`,
so no exception reaches the caller and the full envelope is always built.
Each route handler converts a collaborator failure into a `confidence = 0.0`
response with an explanatory solution string, and the envelope always carries
the original query with `route_used` (in the response and in its routing
metadata) equal to the value of the chosen route. -/
theorem C6_process_query_degrades :
    (∀ (env : Collaborators) (e : String), env.kb_search = Except.error e →
      (process_knowledge_base env).confidence = 0.0 ∧
      (process_knowledge_base env).solution = "Error accessing knowledge base: " ++ e ∧
      (process_knowledge_base env).error = some e) ∧
    (∀ (env : Collaborators) (e : String), env.web_search = Except.error e →
      (process_web_search env).confidence = 0.0 ∧
      (process_web_search env).solution = "Error during web search: " ++ e ∧
      (process_web_search env).error = some e) ∧
    (∀ (env : Collaborators) (e : String), env.solve_direct = Except.error e →
      (process_fallback env).confidence = 0.0 ∧
      (process_fallback env).solution =
        "I'm having trouble solving this problem. Could you please rephrase your question or provide more context?" ∧
      (process_fallback env).error = some e) ∧
    (∀ (query : String) (env : Collaborators),
      (process_query query env).query = query ∧
      (process_query query env).route_used = (route_query query env.kb_search).1.value ∧
      (process_query query env).routing_metadata.route_used =
        some (route_query query env.kb_search).1.value) := by
  refine ⟨fun env e h => ?_, fun env e h => ?_, fun env e h => ?_, fun query env => ?_⟩
  · simp [process_knowledge_base, h]
  · simp [process_web_search, h]
  · simp [process_fallback, h]
  · rcases hrq : route_query query env.kb_search with ⟨rd, md⟩
    cases rd <;>
      simp [process_query, applyResult, hrq, RouteDecision.value]

/-- C6, witness: with every collaborator raising `"boom"`, each handler
degrades to confidence `0.0`, and the envelope of a processed query carries
the query and the chosen route. -/
theorem C6_process_query_degrades_witness :
    (process_knowledge_base
      ⟨Except.error "boom", Except.error "boom", Except.error "boom",
       Except.error "boom", Except.error "boom"⟩).confidence = 0.0 ∧
    (process_web_search
      ⟨Except.error "boom", Except.error "boom", Except.error "boom",
       Except.error "boom", Except.error "boom"⟩).confidence = 0.0 ∧
    (process_fallback
      ⟨Except.error "boom", Except.error "boom", Except.error "boom",
       Except.error "boom", Except.error "boom"⟩).confidence = 0.0 ∧
    (process_query "q"
      ⟨Except.error "boom", Except.error "boom", Except.error "boom",
       Except.error "boom", Except.error "boom"⟩).query = "q" :=
  ⟨(C6_process_query_degrades.1
      ⟨Except.error "boom", Except.error "boom", Except.error "boom",
       Except.error "boom", Except.error "boom"⟩ "boom" rfl).1,
   (C6_process_query_degrades.2.1
      ⟨Except.error "boom", Except.error "boom", Except.error "boom",
       Except.error "boom", Except.error "boom"⟩ "boom" rfl).1,
   (C6_process_query_degrades.2.2.1
      ⟨Except.error "boom", Except.error "boom", Except.error "boom",
       Except.error "boom", Except.error "boom"⟩ "boom" rfl).1,
   (C6_process_query_degrades.2.2.2 "q"
      ⟨Except.error "boom", Except.error "boom", Except.error "boom",
       Except.error "boom", Except.error "boom"⟩).1⟩

/-- C9.  Across any sequence of `collect_feedback` calls on one fresh store,
the generated feedback ids are pairwise distinct: each call embeds the
one-based store size in the id's zero-padded counter field, and with the
fixed-width (fifteen-character) `strftime` timestamps the counter field is
recoverable from the id, so ids at different positions differ. -/
theorem C9_feedback_ids_unique (calls : List CollectCall)
    (hts : ∀ c ∈ calls, c.timestamp.length = 15) :
    ((runCollect default calls).feedback_storage.map Prod.fst).Nodup := by
  have hinv := runCollect_invariant calls default hts
    (by intro i h; exact absurd h (Nat.not_lt_zero i))
  rw [List.nodup_iff_injective_get]
  rintro ⟨i, hi⟩ ⟨j, hj⟩ hij
  have hi2 : i < (runCollect default calls).feedback_storage.length := by simpa using hi
  have hj2 : j < (runCollect default calls).feedback_storage.length := by simpa using hj
  have hgi : ((runCollect default calls).feedback_storage.map Prod.fst).get ⟨i, hi⟩ =
      ((runCollect default calls).feedback_storage.get ⟨i, hi2⟩).1 := by
    simp [List.get_map]
  have hgj : ((runCollect default calls).feedback_storage.map Prod.fst).get ⟨j, hj⟩ =
      ((runCollect default calls).feedback_storage.get ⟨j, hj2⟩).1 := by
    simp [List.get_map]
  rw [hgi, hgj] at hij
  obtain ⟨ts1, hl1, hk1⟩ := hinv i hi2
  obtain ⟨ts2, hl2, hk2⟩ := hinv j hj2
  rw [hk1, hk2] at hij
  have := generate_feedback_id_inj (by rw [hl1, hl2]) hij
  exact Fin.ext this

/-- C9, witness: two concrete calls with fifteen-character timestamps yield
two distinct stored ids. -/
theorem C9_feedback_ids_unique_witness :
    (∀ c ∈ ([⟨"20240101_120000", "q1", {}, {}⟩,
             ⟨"20240101_120001", "q2", {}, {}⟩] : List CollectCall),
      c.timestamp.length = 15) ∧
    ((runCollect default
        ([⟨"20240101_120000", "q1", {}, {}⟩,
          ⟨"20240101_120001", "q2", {}, {}⟩] : List CollectCall)).feedback_storage.map
        Prod.fst).Nodup :=
  ⟨by decide,
   C9_feedback_ids_unique
     ([⟨"20240101_120000", "q1", {}, {}⟩,
       ⟨"20240101_120001", "q2", {}, {}⟩] : List CollectCall) (by decide)⟩

end MathSolverAgent
